import Mathlib

/-
Verification of the Intcode virtual machine of jhungerford/adventofcode-2019.

The repository reimplements the VM several times with growing capability; the
feature-complete copy is src/day17/src/computer.rs (sparse i64 memory, relative
base, suspend/resume), embedded below in namespace `Day17`.  The earlier 32-bit
copy src/day15/src/computer.rs (fixed Vec<i32> memory, no relative base) is
embedded in namespace `Day15`, and the day23 network orchestrator
(src/day23/src/main.rs, fn part2) in namespace `Day23`.

Modelling conventions, applied throughout:
- Rust i64 values are Lean `Int`; the `as u32` / `as usize` casts are explicit
  reductions modulo 2^32 / 2^64 (64-bit platform), and i64 / i32 addition and
  multiplication wrap at the machine width (release-build semantics; debug
  builds abort instead of wrapping, and every in-range computation proved below
  is unaffected by the choice).
- Rust `panic!` is modelled as `Except.error` carrying the panic message;
  fallible functions return `Except String _`.
- `VecDeque` is a Lean `List`: `pop_front` takes the head, `push_back` appends.
- `Computer::run`, a `while` loop, takes an explicit fuel argument; exhausted
  fuel returns the computer still in the `Runnable` state, so a result whose
  state is `Done` or `WaitingForInput` is a genuine termination of the loop.
-/

namespace Day17

/-- Rust `as u32` applied to an i64 value: reduce modulo 2^32. -/
def toU32 (v : Int) : Nat := (v % (2 ^ 32 : Int)).toNat

/-- Rust `as usize` applied to an i64 value on a 64-bit platform: reduce modulo 2^64. -/
def toUSize (v : Int) : Nat := (v % (2 ^ 64 : Int)).toNat

/-- Two's-complement wrap-around of i64 addition/multiplication results. -/
def wrap64 (v : Int) : Int := (v + 2 ^ 63) % 2 ^ 64 - 2 ^ 63

/-- The digit-collection loop of `OpcodeModes::parse`, structurally recursive on
a fuel argument so that it stays kernel-reducible; `modeDigits` starts the fuel
at the number itself, which bounds the iteration count since `n / 10 < n` for
positive `n`, so the `0, _ + 1` case is never reached from `modeDigits`. -/
def modeDigitsAux : Nat → Nat → List Nat
  | _, 0 => []
  | 0, _ + 1 => []
  | fuel + 1, n + 1 => (n + 1) % 10 :: modeDigitsAux fuel ((n + 1) / 10)

/-- The digit list collected by `OpcodeModes::parse`: least-significant decimal
digit first, stopping at 0.  (`modeDigits 0 = []` matches the loop guard
`while parsing_number > 0`.) -/
def modeDigits (n : Nat) : List Nat := modeDigitsAux n n

/-- src/day17/src/computer.rs, struct OpcodeModes: an opcode (u32, as a Nat)
plus the parameter-mode digits, least significant first. -/
structure OpcodeModes where
  opcode : Nat
  modes : List Nat
deriving DecidableEq

/-- `OpcodeModes::parse`.  Rust `%` and `/` on i64 truncate toward zero
(`Int.tmod` / `Int.tdiv`); the loop pushes digits only while the remaining
number is positive, so a non-positive `number / 100` contributes no digits
(`Int.toNat` sends it to 0 and `modeDigits 0 = []`). -/
def OpcodeModes.parse (number : Int) : OpcodeModes :=
  { opcode := toU32 (Int.tmod number 100)
    modes := modeDigits (Int.tdiv number 100).toNat }

/-- `OpcodeModes::parameter_mode`: the mode digit at `index`, or 0 past the end. -/
def OpcodeModes.parameter_mode (om : OpcodeModes) (index : Nat) : Nat :=
  om.modes.getD index 0

/-- Sparse memory: `HashMap<usize, i64>` modelled as its lookup function. -/
structure Memory where
  values : Nat → Option Int

/-- `Memory::for_program`: address `i` maps to the i-th program value. -/
def Memory.for_program (program : List Int) : Memory :=
  ⟨fun addr => program.get? addr⟩

/-- `Memory::get`: never-written addresses read as 0. -/
def Memory.get (m : Memory) (addr : Nat) : Int :=
  (m.values addr).getD 0

/-- `Memory::set`: record `value` at `addr`. -/
def Memory.set (m : Memory) (addr : Nat) (value : Int) : Memory :=
  ⟨fun a => if a = addr then some value else m.values a⟩

/-- enum ProgramState. -/
inductive ProgramState where
  | Done
  | Runnable
  | WaitingForInput
deriving DecidableEq

/-- struct Computer: program counter, relative base, lifecycle state, FIFO
input/output queues, and sparse memory. -/
structure Computer where
  pc : Nat
  relative_base : Int
  state : ProgramState
  input : List Int
  output : List Int
  memory : Memory

/-- enum Parameter. -/
inductive Parameter where
  | Position (index : Nat)
  | Immediate (value : Int)
  | Relative (index : Nat)
deriving DecidableEq

/-- `Parameter::value`. -/
def Parameter.value (p : Parameter) (memory : Memory) : Int :=
  match p with
  | .Position index => memory.get index
  | .Immediate value => value
  | .Relative index => memory.get index

/-- `OpcodeModes::parameter`: resolve the raw operand at `pc + parameter + 1`
according to the parameter's mode.  The Relative arm computes
`(parameter_value + computer.relative_base) as usize`; a mode digit outside
{0,1,2} panics. -/
def OpcodeModes.parameter (om : OpcodeModes) (computer : Computer)
    (parameter : Nat) : Except String Parameter :=
  let parameter_mode := om.parameter_mode parameter
  let parameter_value := computer.memory.get (computer.pc + parameter + 1)
  match parameter_mode with
  | 0 => .ok (.Position (toUSize parameter_value))
  | 1 => .ok (.Immediate parameter_value)
  | 2 => .ok (.Relative (toUSize (wrap64 (parameter_value + computer.relative_base))))
  | n => .error ("Invalid parameter mode " ++ toString n)

/-- `OpcodeModes::index_parameter`: the store target of an instruction.  Mode
digits 0 and 1 both take the raw operand as the address; mode 2 adds the
relative base; other digits panic. -/
def OpcodeModes.index_parameter (om : OpcodeModes) (computer : Computer)
    (parameter : Nat) : Except String Nat :=
  let parameter_mode := om.parameter_mode parameter
  let parameter_value := computer.memory.get (computer.pc + parameter + 1)
  match parameter_mode with
  | 0 | 1 => .ok (toUSize parameter_value)
  | 2 => .ok (toUSize (wrap64 (parameter_value + computer.relative_base)))
  | n => .error ("Invalid parameter index for mode " ++ toString n)

/-- enum Instruction.  `from`, `to` and `by` are Rust field names that are
Lean keywords, hence `from'`, `to'` and `by'`. -/
inductive Instruction where
  | Add (a : Parameter) (b : Parameter) (out : Nat)
  | Multiply (a : Parameter) (b : Parameter) (out : Nat)
  | Input (to' : Nat)
  | Output (from' : Parameter)
  | JumpIfTrue (what : Parameter) (to' : Parameter)
  | JumpIfFalse (what : Parameter) (to' : Parameter)
  | LessThan (a : Parameter) (b : Parameter) (out : Nat)
  | Equals (a : Parameter) (b : Parameter) (out : Nat)
  | RelativeBaseOffset (by' : Parameter)
  | Halt
deriving DecidableEq

/-- `Instruction::parse`: decode the cell at `pc`; an opcode outside
{1,...,9,99} panics naming the opcode and the program counter. -/
def Instruction.parse (computer : Computer) : Except String Instruction :=
  let opcode_modes := OpcodeModes.parse (computer.memory.get computer.pc)
  match opcode_modes.opcode with
  | 1 => do
      let a ← opcode_modes.parameter computer 0
      let b ← opcode_modes.parameter computer 1
      let out ← opcode_modes.index_parameter computer 2
      .ok (.Add a b out)
  | 2 => do
      let a ← opcode_modes.parameter computer 0
      let b ← opcode_modes.parameter computer 1
      let out ← opcode_modes.index_parameter computer 2
      .ok (.Multiply a b out)
  | 3 => do
      let to' ← opcode_modes.index_parameter computer 0
      .ok (.Input to')
  | 4 => do
      let from' ← opcode_modes.parameter computer 0
      .ok (.Output from')
  | 5 => do
      let what ← opcode_modes.parameter computer 0
      let to' ← opcode_modes.parameter computer 1
      .ok (.JumpIfTrue what to')
  | 6 => do
      let what ← opcode_modes.parameter computer 0
      let to' ← opcode_modes.parameter computer 1
      .ok (.JumpIfFalse what to')
  | 7 => do
      let a ← opcode_modes.parameter computer 0
      let b ← opcode_modes.parameter computer 1
      let out ← opcode_modes.index_parameter computer 2
      .ok (.LessThan a b out)
  | 8 => do
      let a ← opcode_modes.parameter computer 0
      let b ← opcode_modes.parameter computer 1
      let out ← opcode_modes.index_parameter computer 2
      .ok (.Equals a b out)
  | 9 => do
      let by' ← opcode_modes.parameter computer 0
      .ok (.RelativeBaseOffset by')
  | 99 => .ok .Halt
  | n => .error ("Unknown opcode " ++ toString n ++ " at pc " ++ toString computer.pc)

/-- `Instruction::run`: execute one decoded instruction, returning the updated
computer and the resulting program state.  An Input with an empty queue
returns `WaitingForInput` without touching pc or memory (the Rust early
`return` skips the pc assignment); Halt likewise leaves the computer as is. -/
def Instruction.run (inst : Instruction) (computer : Computer) :
    Computer × ProgramState :=
  let pc := computer.pc
  match inst with
  | .Add a b out =>
      ({ computer with
          memory := computer.memory.set out
            (wrap64 (a.value computer.memory + b.value computer.memory))
          pc := pc + 4 }, .Runnable)
  | .Multiply a b out =>
      ({ computer with
          memory := computer.memory.set out
            (wrap64 (a.value computer.memory * b.value computer.memory))
          pc := pc + 4 }, .Runnable)
  | .Input to' =>
      match computer.input with
      | [] => (computer, .WaitingForInput)
      | value :: rest =>
          ({ computer with
              memory := computer.memory.set to' value
              input := rest
              pc := pc + 2 }, .Runnable)
  | .Output from' =>
      ({ computer with
          output := computer.output ++ [from'.value computer.memory]
          pc := pc + 2 }, .Runnable)
  | .JumpIfTrue what to' =>
      ({ computer with
          pc := if what.value computer.memory ≠ 0 then
              toUSize (to'.value computer.memory)
            else pc + 3 }, .Runnable)
  | .JumpIfFalse what to' =>
      ({ computer with
          pc := if what.value computer.memory = 0 then
              toUSize (to'.value computer.memory)
            else pc + 3 }, .Runnable)
  | .LessThan a b out =>
      ({ computer with
          memory := computer.memory.set out
            (if a.value computer.memory < b.value computer.memory then 1 else 0)
          pc := pc + 4 }, .Runnable)
  | .Equals a b out =>
      ({ computer with
          memory := computer.memory.set out
            (if a.value computer.memory = b.value computer.memory then 1 else 0)
          pc := pc + 4 }, .Runnable)
  | .RelativeBaseOffset by' =>
      ({ computer with
          relative_base := wrap64 (computer.relative_base + by'.value computer.memory)
          pc := pc + 2 }, .Runnable)
  | .Halt => (computer, .Done)

/-- `Computer::new`. -/
def Computer.new (program : List Int) : Computer :=
  { pc := 0
    relative_base := 0
    state := .Runnable
    input := []
    output := []
    memory := Memory.for_program program }

/-- `Computer::input` (named `push_input` because the `input` field projection
takes the source name): enqueue a value, waking a WaitingForInput computer. -/
def Computer.push_input (computer : Computer) (value : Int) : Computer :=
  { computer with
      input := computer.input ++ [value]
      state :=
        if computer.state = ProgramState.WaitingForInput then
          ProgramState.Runnable
        else computer.state }

/-- `Computer::last_output`. -/
def Computer.last_output (computer : Computer) : Option Int :=
  computer.output.getLast?

/-- `Computer::is_runnable`. -/
def Computer.is_runnable (computer : Computer) : Bool :=
  computer.state = ProgramState.Runnable

/-- `Computer::step`: parse the instruction at `pc`, run it, store the
resulting state. -/
def Computer.step (computer : Computer) : Except String Computer := do
  let inst ← Instruction.parse computer
  let (computer', state') := inst.run computer
  .ok { computer' with state := state' }

/-- `Computer::run`: step while runnable.  The loop is given explicit fuel;
the Rust function then returns `self.last_output()`, recoverable from the
returned computer. -/
def Computer.run : Nat → Computer → Except String Computer
  | 0, computer => .ok computer
  | fuel + 1, computer =>
      if computer.is_runnable then do
        let computer' ← computer.step
        Computer.run fuel computer'
      else .ok computer

end Day17

namespace Day15

/-- Two's-complement wrap-around of i32 addition/multiplication results
(src/day15/src/computer.rs stores the program as `Vec<i32>`). -/
def wrap32 (v : Int) : Int := (v + 2 ^ 31) % 2 ^ 32 - 2 ^ 31

/-- src/day15/src/computer.rs, struct OpcodeModes (same layout as the day17
copy, parsed from an i32 cell). -/
structure OpcodeModes where
  opcode : Nat
  modes : List Nat
deriving DecidableEq

/-- Day15 `OpcodeModes::parse` — textually the same algorithm as the day17 copy,
on an i32 `number`. -/
def OpcodeModes.parse (number : Int) : OpcodeModes :=
  { opcode := Day17.toU32 (Int.tmod number 100)
    modes := Day17.modeDigits (Int.tdiv number 100).toNat }

/-- Day15 `OpcodeModes::parameter_mode`. -/
def OpcodeModes.parameter_mode (om : OpcodeModes) (index : Nat) : Nat :=
  om.modes.getD index 0

/-- Day15 enum Parameter: Position and Immediate only (no Relative mode). -/
inductive Parameter where
  | Position (index : Nat)
  | Immediate (value : Int)
deriving DecidableEq

/-- Rust `Vec` indexing `program[index]`: panics when out of bounds. -/
def listGet (program : List Int) (index : Nat) : Except String Int :=
  match program.get? index with
  | some v => .ok v
  | none => .error ("index out of bounds: the len is " ++ toString program.length
      ++ " but the index is " ++ toString index)

/-- Rust `Vec` index assignment `program[index] = value`: panics out of bounds. -/
def listSet (program : List Int) (index : Nat) (value : Int) :
    Except String (List Int) :=
  if index < program.length then .ok (program.set index value)
  else .error ("index out of bounds: the len is " ++ toString program.length
      ++ " but the index is " ++ toString index)

/-- Day15 `Parameter::value`: Position indexes the program vector (panicking
out of bounds), Immediate is the value itself. -/
def Parameter.value (p : Parameter) (program : List Int) : Except String Int :=
  match p with
  | .Position index => listGet program index
  | .Immediate value => .ok value

/-- Day15 `OpcodeModes::parameter`: only modes 0 and 1 exist; any other digit
panics. -/
def OpcodeModes.parameter (om : OpcodeModes) (program : List Int) (pc : Nat)
    (parameter : Nat) : Except String Parameter :=
  match om.parameter_mode parameter with
  | 0 => do
      let v ← listGet program (pc + parameter + 1)
      .ok (.Position (Day17.toUSize v))
  | 1 => do
      let v ← listGet program (pc + parameter + 1)
      .ok (.Immediate v)
  | n => .error ("Invalid parameter mode " ++ toString n)

/-- Day15 enum Instruction: nine variants, no RelativeBaseOffset. -/
inductive Instruction where
  | Add (a : Parameter) (b : Parameter) (out : Nat)
  | Multiply (a : Parameter) (b : Parameter) (out : Nat)
  | Input (to' : Nat)
  | Output (from' : Parameter)
  | JumpIfTrue (what : Parameter) (to' : Parameter)
  | JumpIfFalse (what : Parameter) (to' : Parameter)
  | LessThan (a : Parameter) (b : Parameter) (out : Nat)
  | Equals (a : Parameter) (b : Parameter) (out : Nat)
  | Halt
deriving DecidableEq

/-- Day15 struct Computer: dense `Vec<i32>` program doubling as memory,
program counter, FIFO queues and lifecycle state (the day15 ProgramState
enum is identical to the day17 one, so that type is reused). -/
structure Computer where
  program : List Int
  pc : Nat
  input : List Int
  output : List Int
  state : Day17.ProgramState

/-- Day15 `Instruction::parse`: write targets read `program[pc + 3] as usize`
(`program[pc + 1]` for Input) directly; unknown opcodes panic naming opcode
and pc. -/
def Instruction.parse (computer : Computer) : Except String Instruction := do
  let program := computer.program
  let pc := computer.pc
  let cell ← listGet program pc
  let opcode_modes := OpcodeModes.parse cell
  match opcode_modes.opcode with
  | 1 => do
      let a ← opcode_modes.parameter program pc 0
      let b ← opcode_modes.parameter program pc 1
      let outv ← listGet program (pc + 3)
      .ok (.Add a b (Day17.toUSize outv))
  | 2 => do
      let a ← opcode_modes.parameter program pc 0
      let b ← opcode_modes.parameter program pc 1
      let outv ← listGet program (pc + 3)
      .ok (.Multiply a b (Day17.toUSize outv))
  | 3 => do
      let tov ← listGet program (pc + 1)
      .ok (.Input (Day17.toUSize tov))
  | 4 => do
      let from' ← opcode_modes.parameter program pc 0
      .ok (.Output from')
  | 5 => do
      let what ← opcode_modes.parameter program pc 0
      let to' ← opcode_modes.parameter program pc 1
      .ok (.JumpIfTrue what to')
  | 6 => do
      let what ← opcode_modes.parameter program pc 0
      let to' ← opcode_modes.parameter program pc 1
      .ok (.JumpIfFalse what to')
  | 7 => do
      let a ← opcode_modes.parameter program pc 0
      let b ← opcode_modes.parameter program pc 1
      let outv ← listGet program (pc + 3)
      .ok (.LessThan a b (Day17.toUSize outv))
  | 8 => do
      let a ← opcode_modes.parameter program pc 0
      let b ← opcode_modes.parameter program pc 1
      let outv ← listGet program (pc + 3)
      .ok (.Equals a b (Day17.toUSize outv))
  | 99 => .ok .Halt
  | n => .error ("Unknown opcode " ++ toString n ++ " at pc " ++ toString pc)

/-- Day15 `Instruction::run`: like the day17 copy but over the dense i32
program vector, so arithmetic wraps at 32 bits and stores panic out of
bounds. -/
def Instruction.run (inst : Instruction) (computer : Computer) :
    Except String (Computer × Day17.ProgramState) :=
  let program := computer.program
  let pc := computer.pc
  match inst with
  | .Add a b out => do
      let av ← a.value program
      let bv ← b.value program
      let program' ← listSet program out (wrap32 (av + bv))
      .ok ({ computer with program := program', pc := pc + 4 }, .Runnable)
  | .Multiply a b out => do
      let av ← a.value program
      let bv ← b.value program
      let program' ← listSet program out (wrap32 (av * bv))
      .ok ({ computer with program := program', pc := pc + 4 }, .Runnable)
  | .Input to' =>
      match computer.input with
      | [] => .ok (computer, .WaitingForInput)
      | value :: rest => do
          let program' ← listSet program to' value
          .ok ({ computer with program := program', input := rest, pc := pc + 2 },
            .Runnable)
  | .Output from' => do
      let v ← from'.value program
      .ok ({ computer with output := computer.output ++ [v], pc := pc + 2 },
        .Runnable)
  | .JumpIfTrue what to' => do
      let wv ← what.value program
      if wv ≠ 0 then do
        let tv ← to'.value program
        .ok ({ computer with pc := Day17.toUSize tv }, .Runnable)
      else
        .ok ({ computer with pc := pc + 3 }, .Runnable)
  | .JumpIfFalse what to' => do
      let wv ← what.value program
      if wv = 0 then do
        let tv ← to'.value program
        .ok ({ computer with pc := Day17.toUSize tv }, .Runnable)
      else
        .ok ({ computer with pc := pc + 3 }, .Runnable)
  | .LessThan a b out => do
      let av ← a.value program
      let bv ← b.value program
      let program' ← listSet program out (if av < bv then 1 else 0)
      .ok ({ computer with program := program', pc := pc + 4 }, .Runnable)
  | .Equals a b out => do
      let av ← a.value program
      let bv ← b.value program
      let program' ← listSet program out (if av = bv then 1 else 0)
      .ok ({ computer with program := program', pc := pc + 4 }, .Runnable)
  | .Halt => .ok (computer, .Done)

/-- Day15 `Computer::new`. -/
def Computer.new (program : List Int) : Computer :=
  { program := program
    pc := 0
    input := []
    output := []
    state := .Runnable }

/-- Day15 `Computer::input` (see the day17 naming note). -/
def Computer.push_input (computer : Computer) (value : Int) : Computer :=
  { computer with
      input := computer.input ++ [value]
      state :=
        if computer.state = Day17.ProgramState.WaitingForInput then
          Day17.ProgramState.Runnable
        else computer.state }

/-- Day15 `Computer::is_runnable`. -/
def Computer.is_runnable (computer : Computer) : Bool :=
  computer.state = Day17.ProgramState.Runnable

/-- Day15 `Computer::step`. -/
def Computer.step (computer : Computer) : Except String Computer := do
  let inst ← Instruction.parse computer
  let (computer', state') ← inst.run computer
  .ok { computer' with state := state' }

/-- Day15 `Computer::run`, fueled like the day17 copy. -/
def Computer.run : Nat → Computer → Except String Computer
  | 0, computer => .ok computer
  | fuel + 1, computer =>
      if computer.is_runnable then do
        let computer' ← computer.step
        Computer.run fuel computer'
      else .ok computer

end Day15

namespace Day23

/-- Modelled from the spec: src/day23/src/main.rs declares `mod computer;`, but
day23/src/computer.rs is not present in the tree.  Per the spec (sections 4.3
and 4.5) the engine is the same suspend/resume sparse-memory i64 computer as
the day17 copy, so the day17 `Computer` embedded above is used for the
networked instances; `dump_output` drains the output queue and returns the
drained values in FIFO order (spec 4.5: "drain its output queue"). -/
def dump_output (computer : Day17.Computer) : List Int × Day17.Computer :=
  (computer.output, { computer with output := [] })

/-- `output.chunks_exact(3)` over the drained values, as (address, x, y)
triples (any remainder shorter than 3 is dropped; part2 panics on such a
remainder before this point). -/
def toTriples : List Int → List (Int × Int × Int)
  | a :: x :: y :: rest => (a, x, y) :: toTriples rest
  | _ => []

/-- `networked_computers[i].input(value)`: Vec indexing panics out of
bounds. -/
def inputAt (computers : List Day17.Computer) (i : Nat) (value : Int) :
    Except String (List Day17.Computer) :=
  match computers.get? i with
  | some c => .ok (computers.set i (c.push_input value))
  | none => .error ("index out of bounds: the len is " ++ toString computers.length
      ++ " but the index is " ++ toString i)

/-- The packet-routing loop of part2: `window[0] as usize` is the destination;
address 255 replaces the NAT's remembered packet, anything else enqueues x
then y on the destination computer. -/
def routePackets : List (Int × Int × Int) → List Day17.Computer → Option Int →
    Option Int → Except String (List Day17.Computer × Option Int × Option Int)
  | [], computers, nat_x, nat_y => .ok (computers, nat_x, nat_y)
  | (address, x, y) :: rest, computers, nat_x, nat_y =>
      if Day17.toUSize address = 255 then
        routePackets rest computers (some x) (some y)
      else do
        let computers' ← inputAt computers (Day17.toUSize address) x
        let computers'' ← inputAt computers' (Day17.toUSize address) y
        routePackets rest computers'' nat_x nat_y

/-- One computer visit inside a part2 round-robin pass: feed `-1` if the
computer is starved (else clear the idle flag), run it to its next suspension,
drain its output (panicking on an incomplete packet, clearing the idle flag if
any output appeared) and route the packets. -/
def visit (fuel : Nat) (acc : List Day17.Computer × Option Int × Option Int × Bool)
    (i : Nat) : Except String (List Day17.Computer × Option Int × Option Int × Bool) := do
  let (computers, nat_x, nat_y, idle) := acc
  let comp ← match computers.get? i with
    | some c => .ok c
    | none => .error ("index out of bounds: the len is " ++ toString computers.length
        ++ " but the index is " ++ toString i)
  let (comp', idle') :=
    if comp.state = Day17.ProgramState.WaitingForInput ∧ comp.input = [] then
      (comp.push_input (-1), idle)
    else (comp, false)
  let comp'' ← Day17.Computer.run fuel comp'
  let (output, comp''') := dump_output comp''
  let computers' := computers.set i comp'''
  if output ≠ [] ∧ output.length % 3 ≠ 0 then
    .error ("Computer " ++ toString i ++ " produced an incomplete packet")
  else
    let idle'' := if output ≠ [] then false else idle'
    let (computers'', nat_x', nat_y') ← routePackets (toTriples output) computers' nat_x nat_y
    .ok (computers'', nat_x', nat_y', idle'')

/-- One full round-robin pass of part2 (`for i in 0..networked_computers.len()`):
the idle flag starts true and survives only if every computer was starved at
its visit and no computer produced output. -/
def pass (fuel : Nat) (computers : List Day17.Computer)
    (nat_x nat_y : Option Int) :
    Except String (List Day17.Computer × Option Int × Option Int × Bool) :=
  (List.range computers.length).foldlM (visit fuel) (computers, nat_x, nat_y, true)

/-- The part2 driver state between passes: the fleet, the NAT's remembered
packet, and the Y value of the NAT's previous delivery. -/
structure NetState where
  computers : List Day17.Computer
  nat_x : Option Int
  nat_y : Option Int
  last_delivered_y : Option Int

/-- Rust `Option::unwrap`. -/
def optUnwrap : Option Int → Except String Int
  | some v => .ok v
  | none => .error "called unwrap on a None value"

/-- One iteration of part2's outer loop: run a pass; if the fleet was idle,
either return the NAT's Y value (when it repeats the previously delivered Y —
the Rust `return` fires before the injection statements) or record the Y and
inject the remembered packet into computer 0. -/
def part2PassStep (fuel : Nat) (s : NetState) : Except String (Sum Int NetState) := do
  let (computers, nat_x, nat_y, idle) ← pass fuel s.computers s.nat_x s.nat_y
  if idle then
    if s.last_delivered_y ≠ none ∧ nat_y = s.last_delivered_y then do
      let y ← optUnwrap nat_y
      .ok (.inl y)
    else do
      let x ← optUnwrap nat_x
      let y ← optUnwrap nat_y
      let computers' ← inputAt computers 0 x
      let computers'' ← inputAt computers' 0 y
      .ok (.inr ⟨computers'', nat_x, nat_y, nat_y⟩)
  else
    .ok (.inr ⟨computers, nat_x, nat_y, s.last_delivered_y⟩)

/-- The boot sequence of part2: one clone of the program per network address,
each fed its address as first input.  The source fixes the fleet size at 50
instances of the puzzle input; the count is kept as a parameter here, the NAT
logic being independent of it. -/
def part2Init (program : List Int) (n : Nat) : NetState :=
  ⟨(List.range n).map (fun i => (Day17.Computer.new program).push_input (i : Int)),
    none, none, none⟩

/-- part2's outer `loop`, iterated for at most `passes` passes: `.inl y` is the
Rust `return y`, `.inr s` the state handed to the next pass. -/
def part2Iterate (fuel : Nat) : Nat → NetState → Except String (Sum Int NetState)
  | 0, s => .ok (.inr s)
  | passes + 1, s => do
      match ← part2PassStep fuel s with
      | .inl y => .ok (.inl y)
      | .inr s' => part2Iterate fuel passes s'

end Day23

open Day17

set_option maxRecDepth 10000

/-- Elements of the collected digit list are the decimal digits of the number:
`modeDigitsAux fuel n` read at position `k` (default 0) is the k-th
least-significant decimal digit of `n`, whenever the fuel covers `n`. -/
theorem modeDigitsAux_getD (fuel : Nat) :
    ∀ n k, n ≤ fuel → (modeDigitsAux fuel n).getD k 0 = n / 10 ^ k % 10 := by
  induction fuel with
  | zero =>
    intro n k h
    interval_cases n
    simp [modeDigitsAux]
  | succ fuel ih =>
    intro n k h
    match n with
    | 0 => simp [modeDigitsAux]
    | n + 1 =>
      cases k with
      | zero => simp [modeDigitsAux]
      | succ k =>
        show (modeDigitsAux fuel ((n + 1) / 10)).getD k 0 = _
        rw [ih ((n + 1) / 10) k (by omega)]
        rw [Nat.div_div_eq_div_mul, pow_succ]
        ring_nf

/-- Digit reading for `modeDigits` itself. -/
theorem modeDigits_getD (n k : Nat) : (modeDigits n).getD k 0 = n / 10 ^ k % 10 :=
  modeDigitsAux_getD n n k le_rfl

/-- `wrap64` is the identity on values already in i64 range. -/
theorem wrap64_eq_self (v : Int) (h1 : -2 ^ 63 ≤ v) (h2 : v < 2 ^ 63) :
    wrap64 v = v := by
  unfold wrap64
  omega

/-- `toUSize` is plain `Int.toNat` on values in the usize range. -/
theorem toUSize_eq_toNat (v : Int) (h1 : 0 ≤ v) (h2 : v < 2 ^ 64) :
    toUSize v = v.toNat := by
  unfold toUSize
  omega

/-- Case analysis of `OpcodeModes::parameter` over the mode digit. -/
theorem parameter_eq_cases (om : OpcodeModes) (c : Computer) (k : Nat) :
    om.parameter c k =
      (if om.parameter_mode k = 0 then
        .ok (.Position (toUSize (c.memory.get (c.pc + k + 1))))
      else if om.parameter_mode k = 1 then
        .ok (.Immediate (c.memory.get (c.pc + k + 1)))
      else if om.parameter_mode k = 2 then
        .ok (.Relative (toUSize (wrap64 (c.memory.get (c.pc + k + 1) + c.relative_base))))
      else .error ("Invalid parameter mode " ++ toString (om.parameter_mode k))) := by
  unfold OpcodeModes.parameter
  generalize om.parameter_mode k = m
  rcases m with _ | _ | _ | n
  · simp
  · simp
  · simp
  · rw [if_neg (by omega), if_neg (by omega), if_neg (by omega)]
    rfl

/-- Case analysis of `OpcodeModes::index_parameter` over the mode digit. -/
theorem index_parameter_eq_cases (om : OpcodeModes) (c : Computer) (k : Nat) :
    om.index_parameter c k =
      (if om.parameter_mode k = 0 ∨ om.parameter_mode k = 1 then
        .ok (toUSize (c.memory.get (c.pc + k + 1)))
      else if om.parameter_mode k = 2 then
        .ok (toUSize (wrap64 (c.memory.get (c.pc + k + 1) + c.relative_base)))
      else .error ("Invalid parameter index for mode " ++ toString (om.parameter_mode k))) := by
  unfold OpcodeModes.index_parameter
  generalize om.parameter_mode k = m
  rcases m with _ | _ | _ | n
  · simp
  · simp
  · simp
  · rw [if_neg (by omega), if_neg (by omega)]
    rfl

/-- Claim C1 (amended): for every nonnegative cell value `v`, the decoded
opcode is `v mod 100` and the k-th parameter mode (0-indexed) is the k-th
least-significant decimal digit of `v / 100`, defaulting to 0 (Position) past
the supplied digits.  For negative `v` the claim fails, see the
counterexample. -/
theorem C1_decode_invariant (v : Int) (k : Nat) (hv : 0 ≤ v) :
    ((OpcodeModes.parse v).opcode : Int) = v % 100 ∧
    ((OpcodeModes.parse v).parameter_mode k : Int) = v / 100 / 10 ^ k % 10 := by
  obtain ⟨n, rfl⟩ := Int.eq_ofNat_of_zero_le hv
  constructor
  · show ((toU32 (Int.tmod (n : Int) 100) : Nat) : Int) = _
    have h1 : Int.tmod (n : Int) 100 = ((n % 100 : Nat) : Int) := by simp [Int.tmod]
    unfold toU32
    rw [h1]
    have h2 : (n % 100 : Nat) < 100 := Nat.mod_lt _ (by norm_num)
    omega
  · show (((OpcodeModes.parse (n : Int)).modes.getD k 0 : Nat) : Int) = _
    have h1 : Int.tdiv (n : Int) 100 = ((n / 100 : Nat) : Int) := by simp [Int.tdiv]
    unfold OpcodeModes.parse
    dsimp only
    rw [h1]
    rw [Int.toNat_ofNat]
    rw [modeDigits_getD]
    push_cast
    rfl

/-- Witness for C1: `v = 1002` decodes to opcode 2 with second parameter mode
1 (the digit of `1002 / 100 = 10` at index 1). -/
theorem C1_decode_invariant_witness :
    (0 : Int) ≤ 1002 ∧
    (((OpcodeModes.parse 1002).opcode : Int) = 1002 % 100 ∧
      ((OpcodeModes.parse 1002).parameter_mode 1 : Int) = 1002 / 100 / 10 ^ 1 % 10) :=
  ⟨by norm_num, C1_decode_invariant 1002 1 (by norm_num)⟩

/-- Counterexample for C1 as stated: for the negative cell value `v = -1` the
code computes `(-1 % 100) as u32`, i.e. the wrapped value 4294967295, which is
neither `-1 mod 100 = 99` (euclidean remainder) nor Rust's truncated remainder
`-1`; the claim's decode equation therefore does not extend to negative `v`. -/
theorem C1_counterexample :
    ((OpcodeModes.parse (-1)).opcode : Int) ≠ (-1 : Int) % 100 ∧
    ((OpcodeModes.parse (-1)).opcode : Int) ≠ Int.tmod (-1) 100 ∧
    (OpcodeModes.parse (-1)).opcode = 4294967295 := by
  refine ⟨by decide, by decide, by decide⟩

/-- Claim C2: an Input instruction with an empty input queue leaves the whole
computer unchanged (pc, memory, queues) and reports WaitingForInput, so the
same instruction is re-decoded on resume; concretely, `[3,0,99]` run with no
input stops WaitingForInput at pc 0 with address 0 still 3, and after
enqueuing 7 and running again address 0 is 7 and the state is Done. -/
theorem C2_input_suspends (c : Computer) (target : Nat) (h : c.input = []) :
    (Instruction.Input target).run c = (c, ProgramState.WaitingForInput) ∧
    (Computer.run 10 (Computer.new [3, 0, 99])).toOption.map
      (fun c1 => (c1.state, c1.pc, c1.memory.get 0)) =
      some (ProgramState.WaitingForInput, 0, 3) ∧
    ((Computer.run 10 (Computer.new [3, 0, 99])).bind
      (fun c1 => Computer.run 10 (c1.push_input 7))).toOption.map
      (fun c2 => (c2.memory.get 0, c2.state)) = some (7, ProgramState.Done) := by
  refine ⟨?_, by decide, by decide⟩
  simp only [Instruction.run, h]

/-- Witness for C2 at the suspended `[3,0,99]` machine itself. -/
theorem C2_input_suspends_witness :
    (Computer.new [3, 0, 99]).input = [] ∧
    (Instruction.Input 0).run (Computer.new [3, 0, 99]) =
      (Computer.new [3, 0, 99], ProgramState.WaitingForInput) :=
  ⟨rfl, (C2_input_suspends (Computer.new [3, 0, 99]) 0 rfl).1⟩

/-- Claim C3: memory reads default to 0 for never-written addresses, a write
is read back exactly, and a write changes no other address (previously
written addresses keep their values; the space never shrinks). -/
theorem C3_memory_frame (m : Memory) (a b : Nat) (v : Int)
    (hnever : m.values a = none) (hb : b ≠ a) :
    m.get a = 0 ∧ (m.set a v).get a = v ∧ (m.set a v).get b = m.get b := by
  refine ⟨?_, ?_, ?_⟩
  · simp [Memory.get, hnever]
  · simp [Memory.get, Memory.set]
  · simp [Memory.get, Memory.set, hb]

/-- Witness for C3: address 3 of a 1-cell program is never written; writing 9
there is read back and leaves address 0 untouched. -/
theorem C3_memory_frame_witness :
    (Memory.for_program [5]).values 3 = none ∧
    ((Memory.for_program [5]).get 3 = 0 ∧
      ((Memory.for_program [5]).set 3 9).get 3 = 9 ∧
      ((Memory.for_program [5]).set 3 9).get 0 = (Memory.for_program [5]).get 0) :=
  ⟨rfl, C3_memory_frame (Memory.for_program [5]) 3 0 9 rfl (by decide)⟩

/-- The concrete relative-addressing machine of claim C4: cell 0 holds `204`
(Output in Relative mode), the raw operand is `-1`, and the relative base is
2000. -/
def relExample : Computer :=
  { Computer.new [204, -1] with relative_base := 2000 }

/-- Claim C4: a Relative-mode parameter resolves to the effective address
`raw operand + relative_base` (whenever that sum is a representable address);
with relative base 2000 and raw operand `-1` it resolves to address 1999; and
a RelativeBaseOffset instruction adds its resolved parameter value to the
relative base (exactly, for in-range sums) and advances pc by 2. -/
theorem C4_relative_addressing (c : Computer) (k : Nat) (p : Parameter)
    (hmode : (OpcodeModes.parse (c.memory.get c.pc)).parameter_mode k = 2)
    (hnn : 0 ≤ c.memory.get (c.pc + k + 1) + c.relative_base)
    (hhi : c.memory.get (c.pc + k + 1) + c.relative_base < 2 ^ 63)
    (hrlo : -2 ^ 63 ≤ c.relative_base + p.value c.memory)
    (hrhi : c.relative_base + p.value c.memory < 2 ^ 63) :
    (OpcodeModes.parse (c.memory.get c.pc)).parameter c k =
      .ok (.Relative ((c.memory.get (c.pc + k + 1) + c.relative_base).toNat)) ∧
    (Instruction.RelativeBaseOffset p).run c =
      ({ c with relative_base := c.relative_base + p.value c.memory,
                pc := c.pc + 2 }, ProgramState.Runnable) ∧
    (OpcodeModes.parse (relExample.memory.get relExample.pc)).parameter relExample 0 =
      .ok (.Relative 1999) := by
  refine ⟨?_, ?_, by rfl⟩
  · rw [parameter_eq_cases, hmode]
    norm_num
    rw [wrap64_eq_self _ (by omega) hhi, toUSize_eq_toNat _ hnn (by omega)]
  · simp only [Instruction.run]
    rw [wrap64_eq_self _ hrlo hrhi]

/-- Witness for C4 at the concrete relative-addressing machine, with a
RelativeBaseOffset whose operand is the immediate 5. -/
theorem C4_relative_addressing_witness :
    ((OpcodeModes.parse (relExample.memory.get relExample.pc)).parameter_mode 0 = 2 ∧
      0 ≤ relExample.memory.get (relExample.pc + 0 + 1) + relExample.relative_base) ∧
    ((OpcodeModes.parse (relExample.memory.get relExample.pc)).parameter relExample 0 =
      .ok (.Relative ((relExample.memory.get (relExample.pc + 0 + 1) +
        relExample.relative_base).toNat)) ∧
    (Instruction.RelativeBaseOffset (.Immediate 5)).run relExample =
      ({ relExample with
          relative_base := relExample.relative_base +
            (Parameter.Immediate 5).value relExample.memory,
          pc := relExample.pc + 2 }, ProgramState.Runnable) ∧
    (OpcodeModes.parse (relExample.memory.get relExample.pc)).parameter relExample 0 =
      .ok (.Relative 1999)) :=
  ⟨⟨by decide, by decide⟩,
    C4_relative_addressing relExample 0 (.Immediate 5) (by decide) (by decide)
      (by decide) (by decide) (by decide)⟩

/-- Claim C5 (amended): on the feature-complete 64-bit VM the wide-multiply
program outputs exactly `34915192 * 34915192 = 1219070632396864`, a value
beyond 32-bit range — but the day15 copy operates on 32-bit integers, where
this multiply does not fit (see the counterexample), so "all arithmetic
operates on signed 64-bit integers" fails for that copy. -/
theorem C5_wide_arithmetic :
    (Computer.run 10 (Computer.new [1102, 34915192, 34915192, 7, 4, 7, 99, 0])).toOption.map
      (fun c => (c.output, c.state)) = some ([1219070632396864], ProgramState.Done) ∧
    (1219070632396864 : Int) = 34915192 * 34915192 ∧
    (2 ^ 32 : Int) < 1219070632396864 := by
  refine ⟨by decide, by norm_num, by norm_num⟩

/-- Counterexample for C5 as stated: the day15 VM (i32 values, cited by the
claim) runs the same program to completion but outputs the 32-bit wrapped
value 2112, not `34915192 * 34915192` (in a debug build the multiply would
abort instead; either way the exact product is not produced). -/
theorem C5_counterexample :
    (Day15.Computer.run 10
      (Day15.Computer.new [1102, 34915192, 34915192, 7, 4, 7, 99, 0])).toOption.map
      (fun c => (c.output, c.state)) = some ([2112], ProgramState.Done) ∧
    (2112 : Int) ≠ 34915192 * 34915192 ∧
    (2112 : Int) = Day15.wrap32 (34915192 * 34915192) := by
  refine ⟨by decide, by norm_num, by decide⟩

/-- The concrete machine of claim C6's witness: cell 0 holds 342 (unknown
opcode 42 with mode digit 3), and the machine is already Done. -/
def doneUnknownExample : Computer :=
  { Computer.new [342] with state := ProgramState.Done }

/-- Claim C6 (amended): an unknown opcode aborts with a diagnostic naming the
opcode and the program counter; an addressing-mode digit outside {0,1,2}
aborts with a diagnostic naming the digit (but not the program counter, see
the counterexample); and running a computer that is already Done is not fatal
at all — the run loop returns it unchanged. -/
theorem C6_fatal_errors (c : Computer) (fuel k : Nat)
    (ho : (OpcodeModes.parse (c.memory.get c.pc)).opcode ∉
      ([1, 2, 3, 4, 5, 6, 7, 8, 9, 99] : List Nat))
    (hm : 3 ≤ (OpcodeModes.parse (c.memory.get c.pc)).parameter_mode k)
    (hdone : c.state = ProgramState.Done) :
    Instruction.parse c = .error ("Unknown opcode " ++
      toString (OpcodeModes.parse (c.memory.get c.pc)).opcode ++
      " at pc " ++ toString c.pc) ∧
    (OpcodeModes.parse (c.memory.get c.pc)).parameter c k =
      .error ("Invalid parameter mode " ++
        toString ((OpcodeModes.parse (c.memory.get c.pc)).parameter_mode k)) ∧
    Computer.run fuel c = .ok c := by
  refine ⟨?_, ?_, ?_⟩
  · unfold Instruction.parse
    dsimp only
    generalize hop : (OpcodeModes.parse (c.memory.get c.pc)).opcode = m at ho ⊢
    simp only [List.mem_cons, List.mem_singleton, not_or] at ho
    split
    all_goals simp_all
  · rw [parameter_eq_cases]
    rw [if_neg (by omega), if_neg (by omega), if_neg (by omega)]
  · cases fuel with
    | zero => rfl
    | succ fuel => simp [Computer.run, Computer.is_runnable, hdone]

/-- Witness for C6 at the Done machine whose cell 0 is 342 (opcode 42, mode
digit 3). -/
theorem C6_fatal_errors_witness :
    ((OpcodeModes.parse (doneUnknownExample.memory.get doneUnknownExample.pc)).opcode ∉
      ([1, 2, 3, 4, 5, 6, 7, 8, 9, 99] : List Nat) ∧
      3 ≤ (OpcodeModes.parse
        (doneUnknownExample.memory.get doneUnknownExample.pc)).parameter_mode 0 ∧
      doneUnknownExample.state = ProgramState.Done) ∧
    (Instruction.parse doneUnknownExample = .error ("Unknown opcode " ++
      toString (OpcodeModes.parse
        (doneUnknownExample.memory.get doneUnknownExample.pc)).opcode ++
      " at pc " ++ toString doneUnknownExample.pc) ∧
    (OpcodeModes.parse (doneUnknownExample.memory.get doneUnknownExample.pc)).parameter
      doneUnknownExample 0 =
      .error ("Invalid parameter mode " ++
        toString ((OpcodeModes.parse
          (doneUnknownExample.memory.get doneUnknownExample.pc)).parameter_mode 0)) ∧
    Computer.run 5 doneUnknownExample = .ok doneUnknownExample) :=
  ⟨⟨by decide, by decide, rfl⟩,
    C6_fatal_errors doneUnknownExample 5 0 (by decide) (by decide) rfl⟩

/-- Counterexample for C6 as stated: running a computer that has already
halted (`[99]`, state Done) a second time is not fatal — it succeeds, leaving
state, pc and output untouched; and the invalid-mode diagnostic for mode
digit 3 is exactly "Invalid parameter mode 3", which names the digit but not
the program counter. -/
theorem C6_counterexample :
    ((Computer.run 10 (Computer.new [99])).bind (fun c => Computer.run 10 c)).toOption.map
      (fun c2 => (c2.state, c2.pc, c2.output)) = some (ProgramState.Done, 0, []) ∧
    (OpcodeModes.parse 302).parameter (Computer.new [302, 5]) 0 =
      .error "Invalid parameter mode 3" := by
  refine ⟨by decide, by rfl⟩

/-- Claim C7 (amended): a write-target parameter is resolved identically under
mode digits 0 and 1 — an Immediate (1) digit on a write target is accepted,
not rejected, and simply takes the raw operand as the store address — while
mode 2 adds the relative base and any digit outside {0,1,2} panics. -/
theorem C7_write_target_modes (c : Computer) (k : Nat) :
    (OpcodeModes.parse (c.memory.get c.pc)).index_parameter c k =
      (if (OpcodeModes.parse (c.memory.get c.pc)).parameter_mode k = 0 ∨
          (OpcodeModes.parse (c.memory.get c.pc)).parameter_mode k = 1 then
        .ok (toUSize (c.memory.get (c.pc + k + 1)))
      else if (OpcodeModes.parse (c.memory.get c.pc)).parameter_mode k = 2 then
        .ok (toUSize (wrap64 (c.memory.get (c.pc + k + 1) + c.relative_base)))
      else .error ("Invalid parameter index for mode " ++
        toString ((OpcodeModes.parse (c.memory.get c.pc)).parameter_mode k))) :=
  index_parameter_eq_cases (OpcodeModes.parse (c.memory.get c.pc)) c k

/-- Counterexample for C7 as stated: in `[11101, 2, 3, 0, 99]` the Add
instruction's write target carries mode digit 1 (Immediate); far from being
illegal, it resolves to address 0 (the raw operand) and the program runs to
completion, storing 5 at address 0. -/
theorem C7_counterexample :
    (OpcodeModes.parse 11101).index_parameter (Computer.new [11101, 2, 3, 0, 99]) 2 =
      .ok 0 ∧
    (Computer.run 10 (Computer.new [11101, 2, 3, 0, 99])).toOption.map
      (fun c => (c.memory.get 0, c.state)) = some (5, ProgramState.Done) := by
  refine ⟨by rfl, by decide⟩

/-- The day9 self-replication program of claim C8. -/
def quineProgram : List Int :=
  [109, 1, 204, -1, 1001, 100, 1, 100, 1008, 100, 16, 101, 1006, 101, 0, 99]

/-- Claim C8: the quine halts with its output stream equal to the 16 program
values themselves, in order. -/
theorem C8_quine :
    (Computer.run 100 (Computer.new quineProgram)).toOption.map
      (fun c => (c.output, c.state)) = some (quineProgram, ProgramState.Done) ∧
    quineProgram.length = 16 := by
  refine ⟨by decide, by decide⟩

/-- A small network program exercising the day23 NAT logic: broadcast the
packet (255, 10, 5) — i.e. X 10, Y 5 to the NAT — then poll for input
forever, so the fleet goes idle after every delivery. -/
def natTestProgram : List Int :=
  [104, 255, 104, 10, 104, 5, 3, 100, 1106, 0, 6]

/-- Claim C9 (amended): when a round-robin pass leaves the fleet idle, the
driver either terminates — returning the NAT's remembered Y when it equals
the Y of the previous injection, WITHOUT performing a second injection — or
records that Y and injects the remembered packet (X then Y) into instance 0. -/
theorem C9_nat_injection (fuel : Nat) (s : Day23.NetState)
    (cs : List Computer) (nx ny : Option Int)
    (hpass : Day23.pass fuel s.computers s.nat_x s.nat_y = .ok (cs, nx, ny, true)) :
    Day23.part2PassStep fuel s =
      (if s.last_delivered_y ≠ none ∧ ny = s.last_delivered_y then
        (Day23.optUnwrap ny).bind (fun y => .ok (Sum.inl y))
      else
        (Day23.optUnwrap nx).bind (fun x =>
          (Day23.optUnwrap ny).bind (fun y =>
            (Day23.inputAt cs 0 x).bind (fun cs1 =>
              (Day23.inputAt cs1 0 y).bind (fun cs2 =>
                .ok (Sum.inr ⟨cs2, nx, ny, ny⟩)))))) := by
  unfold Day23.part2PassStep
  rw [hpass]
  rfl

/-- Witness for C9 at a fleet state whose pass is trivially idle (no
computers) and whose NAT Y 5 matches the previously delivered Y 5: the step
returns 5. -/
theorem C9_nat_injection_witness :
    Day23.pass 1 (Day23.NetState.mk [] (some 10) (some 5) (some 5)).computers
      (Day23.NetState.mk [] (some 10) (some 5) (some 5)).nat_x
      (Day23.NetState.mk [] (some 10) (some 5) (some 5)).nat_y =
      .ok ([], some 10, some 5, true) ∧
    Day23.part2PassStep 1 (Day23.NetState.mk [] (some 10) (some 5) (some 5)) =
      .ok (Sum.inl 5) := by
  constructor
  · rfl
  · rw [C9_nat_injection 1 (Day23.NetState.mk [] (some 10) (some 5) (some 5))
      [] (some 10) (some 5) rfl]
    rfl

/-- Counterexample for C9 as stated: booting two copies of `natTestProgram`,
after three passes the driver has injected Y 5 once (last_delivered_y is
some 5); the fourth pass again finds every instance idle with the NAT
remembering Y 5 — but the driver terminates returning 5 on that pass instead
of injecting into instance 0, so the NAT does NOT inject on every idle pass,
and the reported Y was delivered by injection only once, not twice. -/
theorem C9_counterexample :
    ((Day23.part2Iterate 100 3 (Day23.part2Init natTestProgram 2)).toOption.map
      (fun r => match r with
        | .inl _ => none
        | .inr s => (Day23.pass 100 s.computers s.nat_x s.nat_y).toOption.map
            (fun q => (q.2.2.2, q.2.2.1, s.last_delivered_y)))) =
      some (some (true, some 5, some 5)) ∧
    (Day23.part2Iterate 100 4 (Day23.part2Init natTestProgram 2)).toOption.map
      (fun r => match r with | .inl y => some y | .inr _ => none) = some (some 5) := by
  refine ⟨by rfl, by rfl⟩

/-- Claim C10: execution is deterministic — the embedded semantics consults
nothing but the computer state (no clock, randomness or environment: `step`
and `run` are pure functions of the state, with I/O explicit FIFO queues), so
two runs from equal states agree on final pc, relative base, lifecycle state,
output queue, and every memory cell. -/
theorem C10_deterministic (fuel addr : Nat) (c1 c2 : Computer) (h : c1 = c2) :
    (Computer.run fuel c1).toOption.map (fun c => c.pc) =
      (Computer.run fuel c2).toOption.map (fun c => c.pc) ∧
    (Computer.run fuel c1).toOption.map (fun c => c.relative_base) =
      (Computer.run fuel c2).toOption.map (fun c => c.relative_base) ∧
    (Computer.run fuel c1).toOption.map (fun c => c.state) =
      (Computer.run fuel c2).toOption.map (fun c => c.state) ∧
    (Computer.run fuel c1).toOption.map (fun c => c.output) =
      (Computer.run fuel c2).toOption.map (fun c => c.output) ∧
    (Computer.run fuel c1).toOption.map (fun c => c.memory.get addr) =
      (Computer.run fuel c2).toOption.map (fun c => c.memory.get addr) := by
  subst h
  exact ⟨rfl, rfl, rfl, rfl, rfl⟩

/-- Witness for C10 at two (equal) copies of the `[99]` machine. -/
theorem C10_deterministic_witness :
    Computer.new [99] = Computer.new [99] ∧
    ((Computer.run 5 (Computer.new [99])).toOption.map (fun c => c.pc) =
      (Computer.run 5 (Computer.new [99])).toOption.map (fun c => c.pc) ∧
    (Computer.run 5 (Computer.new [99])).toOption.map (fun c => c.relative_base) =
      (Computer.run 5 (Computer.new [99])).toOption.map (fun c => c.relative_base) ∧
    (Computer.run 5 (Computer.new [99])).toOption.map (fun c => c.state) =
      (Computer.run 5 (Computer.new [99])).toOption.map (fun c => c.state) ∧
    (Computer.run 5 (Computer.new [99])).toOption.map (fun c => c.output) =
      (Computer.run 5 (Computer.new [99])).toOption.map (fun c => c.output) ∧
    (Computer.run 5 (Computer.new [99])).toOption.map (fun c => c.memory.get 0) =
      (Computer.run 5 (Computer.new [99])).toOption.map (fun c => c.memory.get 0)) :=
  ⟨rfl, C10_deterministic 5 0 (Computer.new [99]) (Computer.new [99]) rfl⟩
